import Mathlib

/-!
Verification of the PageBuddy repository (src/components.py and
src/components_gemini.py) against its natural-language specification.

Shallow embedding conventions:

* External collaborators are parameters of the embedded functions:
  - the HTTP fetch plus HTML extraction (requests + BeautifulSoup) is an
    `Except String String` input: `Except.ok visible` is the visible text
    the soup pipeline extracted, `Except.error e` is the message of the
    exception raised by `requests.get` / `raise_for_status` / parsing;
  - the generative client (`_gemini_generate_text` / `openai_summarize`)
    is an `Option String` input: `none` models the client being
    unavailable, raising, or returning no output (the Python wrappers
    catch every exception and return `None`), `some out` its returned
    text;
  - `nltk.sent_tokenize text` is a `List String` input `sents`;
  - the TF-IDF row sums `np.asarray(X.sum(axis=1)).ravel()` are a
    `List Nat` input `scores` (one score per sentence, so
    `scores.length = sents.length` whenever the scores come from the
    vectorizer run on `sents`); `Nat` stands in for the nonnegative
    float scores, since only the induced ranking matters;
  - the python-pptx / sklearn availability flags (`PPTX_AVAILABLE`,
    `SCIPY_AVAILABLE`) are `Bool` parameters.
* Python string operations used by the sources are re-implemented on
  `String.data` (`pyJoin` for `sep.join`, `pyStrip`/`pyStripChars` for
  `str.strip`, `pySlice` for `text[:n]`, `pySplitlines` for
  `str.splitlines` (modelled on the `\n` separator), `strCat` for string
  concatenation / f-string interpolation, `collapseWhitespace` for
  `re.sub(r'\s+', ' ', ...)`, `collapseBlankLines` for
  `re.sub(r'\n{2,}', '\n\n', ...)`).
* `np.argsort` is modelled with a comparison sort on the index range;
  NumPy's tie order is implementation-defined, the claims below do not
  depend on it.  `np.sort` on the (distinct) index array is modelled by
  a sort as well; on distinct elements every sort agrees.
* Every embedded function is total, which models the sources' blanket
  `try/except` wrappers: no exception escapes to the caller.
-/

/-- Python `sep.join(parts)`. -/
def pyJoin (sep : String) : List String → String
  | [] => ""
  | [s] => s
  | s :: s2 :: rest => String.mk (s.data ++ sep.data ++ (pyJoin sep (s2 :: rest)).data)

/-- Python string concatenation (also f-string interpolation). -/
def strCat (a b : String) : String := String.mk (a.data ++ b.data)

/-- Python `text[:n]` for a nonnegative bound. -/
def pySlice (s : String) (n : Nat) : String := String.mk (s.data.take n)

/-- Characters treated as whitespace by Python `str.strip()` / `\s` (ASCII part). -/
def pyWs (c : Char) : Bool :=
  c = ' ' || c = '\t' || c = '\n' || c = '\r' || c = '\x0b' || c = '\x0c'

/-- Python `str.strip(chars)`: drop characters satisfying `p` from both ends. -/
def pyStripChars (p : Char → Bool) (s : String) : String :=
  String.mk (((s.data.dropWhile p).reverse.dropWhile p).reverse)

/-- Python `str.strip()` (no argument: strip whitespace). -/
def pyStrip (s : String) : String := pyStripChars pyWs s

/-- Helper for `pySplitlines`: accumulate the current (reversed) line. -/
def linesAux (cur : List Char) : List Char → List (List Char)
  | [] => if cur.isEmpty then [] else [cur.reverse]
  | c :: rest => if c = '\n' then cur.reverse :: linesAux [] rest else linesAux (c :: cur) rest

/-- Python `str.splitlines()`, modelled on the `\n` separator: no trailing
empty line for a trailing newline, and `"".splitlines() = []`. -/
def pySplitlines (s : String) : List String :=
  (linesAux [] s.data).map String.mk

/-- Python `str.lower()` (character-wise). -/
def lowerStr (s : String) : String := String.mk (s.data.map Char.toLower)

/-- Boolean test that `pat` occurs at the start of `l` (helper for `in` / `startswith`). -/
def listIsPre : List Char → List Char → Bool
  | [], _ => true
  | _ :: _, [] => false
  | a :: as, b :: bs => a == b && listIsPre as bs

/-- Boolean test that `pat` occurs somewhere in `l`. -/
def occursIn (pat : List Char) : List Char → Bool
  | [] => pat.isEmpty
  | c :: rest => listIsPre pat (c :: rest) || occursIn pat rest

/-- Python `pat in s` on strings. -/
def strContains (s pat : String) : Bool := occursIn pat.data s.data

/-- Python `s.startswith(p)`. -/
def pyStartsWith (s p : String) : Bool := listIsPre p.data s.data

/-- Helper for `collapseWhitespace`: `prevWs` records whether the previous
character was whitespace (in which case this run was already emitted as one space). -/
def collapseWSAux (prevWs : Bool) : List Char → List Char
  | [] => []
  | c :: rest =>
    if pyWs c then
      (if prevWs then collapseWSAux true rest else ' ' :: collapseWSAux true rest)
    else c :: collapseWSAux false rest

/-- Python `re.sub(r'\s+', ' ', text)`: collapse every whitespace run to one space. -/
def collapseWhitespace (s : String) : String := String.mk (collapseWSAux false s.data)

/-- Helper for `collapseBlankLines`: `run` counts the newlines emitted so far
for the current newline run (runs of two or more are emitted as exactly two). -/
def collapseBLAux (run : Nat) : List Char → List Char
  | [] => []
  | c :: rest =>
    if c = '\n' then
      (if 2 ≤ run then collapseBLAux (run + 1) rest else '\n' :: collapseBLAux (run + 1) rest)
    else c :: collapseBLAux 0 rest

/-- Python `re.sub(r"\n{2,}", "\n\n", text)`: collapse newline runs of length
at least two to exactly two newlines. -/
def collapseBlankLines (s : String) : String := String.mk (collapseBLAux 0 s.data)

/-- Model of `np.argsort(scores)`: the indices `0, ..., scores.length - 1`
sorted so that the corresponding scores are ascending.  NumPy's order on tied
scores is implementation-defined; this model fixes one such order. -/
def argsortAsc (scores : List Nat) : List Nat :=
  List.insertionSort (fun i j => scores.getD i 0 ≤ scores.getD j 0) (List.range scores.length)

/-- Model of `top_idx = np.sort(ranked[:n_sentences])` where
`ranked = np.argsort(scores)[::-1]`: take the `n` highest-scoring sentence
indices and put them back in ascending (original text) order. -/
def topIdx (scores : List Nat) (n : Nat) : List Nat :=
  List.insertionSort (· ≤ ·) (((argsortAsc scores).reverse).take n)

/-- Model of `[sents[i] for i in top_idx]`: the top-`n` sentences by TF-IDF
score, in original order (both sources share these lines verbatim). -/
def tfidfSelected (sents : List String) (scores : List Nat) (n : Nat) : List String :=
  (topIdx scores n).map (fun i => sents.getD i "")

namespace components

/-- Embedding of `components.extractive_summary(text, n_sentences)`
(src/components.py lines 78-92), with `sents = sent_tokenize text` and
`scores` the TF-IDF row sums.  The `except` branch (reached only if the
vectorizer itself raises, e.g. on an empty vocabulary) returns the fixed
string "Could not summarize (extractive)." and is outside this embedding,
which models a successful vectorization. -/
def extractive_summary (sents : List String) (scores : List Nat) (n : Nat) : String :=
  if sents.length ≤ n then pyJoin "\n\n" sents
  else pyJoin " " (tfidfSelected sents scores n)

/-- The list of sentences `components.extractive_summary` returns (joined with
"\n\n" when the text has at most `n` sentences, with " " otherwise). -/
def selectedSentences (sents : List String) (scores : List Nat) (n : Nat) : List String :=
  if sents.length ≤ n then sents else tfidfSelected sents scores n

/-- Embedding of `components.fetch_url_text(url)` (src/components.py lines
16-48).  `Except.ok extracted` carries the visible text produced by the
BeautifulSoup pipeline (lines 19-39); the function then collapses whitespace
(line 42) and truncates to 20000 characters plus "..." (lines 44-45).
`Except.error e` models any exception in the try block (line 47-48). -/
def fetch_url_text (res : Except String String) : String :=
  match res with
  | Except.ok extracted =>
    let text := collapseWhitespace extracted
    if 20000 < text.length then strCat (pySlice text 20000) "..." else text
  | Except.error e => strCat "ERROR: Could not fetch URL: " e

/-- Embedding of `components.smart_summarize(text)` (src/components.py lines
94-101).  `openaiKey` models `OPENAI_KEY` being set; `genOut` is the return
value of `openai_summarize(text)` (`none` when it returns `None`, `some out`
otherwise — including its "OpenAI Error: ..." strings). -/
def smart_summarize (openaiKey : Bool) (genOut : Option String)
    (sents : List String) (scores : List Nat) : String :=
  if openaiKey then
    match genOut with
    | some out =>
      if out ≠ "" ∧ pyStartsWith out "OpenAI Error" = false then out
      else extractive_summary sents scores 6
    | none => extractive_summary sents scores 6
  else extractive_summary sents scores 6

end components

namespace components_gemini

/-- Embedding of `components_gemini.extractive_summary(text, n_sentences)`
(src/components_gemini.py lines 234-255).  `scipy` models
`SCIPY_AVAILABLE`; when it is false the source picks the first `n`
sentences.  The `except` branch (line 253-255) is outside this embedding,
which models a successful vectorization. -/
def extractive_summary (scipy : Bool) (sents : List String) (scores : List Nat)
    (n : Nat) : String :=
  if sents.length ≤ n then pyJoin "\n" sents
  else if scipy then pyJoin " " (tfidfSelected sents scores n)
  else pyJoin " " (sents.take n)

/-- The list of sentences `components_gemini.extractive_summary` returns. -/
def selectedSentences (scipy : Bool) (sents : List String) (scores : List Nat)
    (n : Nat) : List String :=
  if sents.length ≤ n then sents
  else if scipy then tfidfSelected sents scores n
  else sents.take n

/-- Embedding of `components_gemini.fetch_url_text(url)`
(src/components_gemini.py lines 132-147).  `Except.ok visible` carries the
text produced by `soup.get_text(separator="\n", strip=True)` after tag
removal (lines 136-141); the function then collapses blank-line runs
(line 143) and strips the result (line 144).  `Except.error e` models any
exception in the try block (lines 145-147).  Note: unlike the
components.py variant, no length truncation is applied. -/
def fetch_url_text (url : String) (res : Except String String) : String :=
  match res with
  | Except.ok visible => pyStrip (collapseBlankLines visible)
  | Except.error e =>
    strCat "ERROR_FETCH: Could not fetch " (strCat url (strCat " (" (strCat e ")")))

/-- Embedding of `components_gemini.smart_summarize(text, ...)`
(src/components_gemini.py lines 204-220).  `genOut` is the value returned
by `_gemini_generate_text` (which returns `None` on every internal error). -/
def smart_summarize (genOut : Option String) (scipy : Bool)
    (sents : List String) (scores : List Nat) : String :=
  match genOut with
  | some out =>
    if out ≠ "" ∧ 10 < (pyStrip out).length then pyStrip out
    else extractive_summary scipy sents scores 6
  | none => extractive_summary scipy sents scores 6

/-- Embedding of `components_gemini.generate_action_items(text, ...)`
(src/components_gemini.py lines 222-231). -/
def generate_action_items (genOut : Option String) (sents : List String) : String :=
  match genOut with
  | some out =>
    if out ≠ "" ∧ 5 < (pyStrip out).length then pyStrip out
    else pyJoin "\n" ((sents.take 4).map (fun s => strCat "- " (pyStrip s)))
  | none => pyJoin "\n" ((sents.take 4).map (fun s => strCat "- " (pyStrip s)))

/-- A flashcard: the dict `{"q": ..., "a": ...}` built by
`generate_flashcards` (exactly the two keys `q` and `a`). -/
structure Flashcard where
  q : String
  a : String
deriving Repr, DecidableEq, Inhabited

/-- Embedding of the last-resort branch of
`components_gemini.generate_flashcards(text, ..., count, ...)`
(src/components_gemini.py lines 316-323), which is the value of
`generate_flashcards` whenever `_gemini_generate_text` yields no usable
output (`out` is `None`, so the `if out:` block at line 281 is skipped):
card `i` is `{"q": sents[i*2] if i*2 < len(sents) else f"Concept {i+1}",
"a": sents[i*2+1] if i*2+1 < len(sents) else ""}`. -/
def generate_flashcards_fallback (sents : List String) (count : Nat) : List Flashcard :=
  (List.range count).map (fun i =>
    { q := if i * 2 < sents.length then sents.getD (i * 2) ""
           else strCat "Concept " (toString (i + 1)),
      a := if i * 2 + 1 < sents.length then sents.getD (i * 2 + 1) "" else "" })

/-- Characters of the strip set `"-â€¢ \n\t\r"` in
`components_gemini.generate_todos` (line 330). -/
def todoStripChar (c : Char) : Bool :=
  c = '-' || c = 'â' || c = '€' || c = '¢' || c = ' ' || c = '\n' || c = '\t' || c = '\r'

/-- Fixed fallback list of `components_gemini.generate_todos` (line 334). -/
def generate_todos_fallback : List String :=
  ["Save article", "Summarize key points", "Make flashcards", "Find references",
   "Share with a peer", "Schedule review"]

/-- Embedding of `components_gemini.generate_todos(text, ...)`
(src/components_gemini.py lines 325-334). -/
def generate_todos (genOut : Option String) : List String :=
  match genOut with
  | some out =>
    if out ≠ "" then
      (((pySplitlines out).filter (fun l => pyStrip l ≠ "")).map
        (fun l => pyStripChars todoStripChar l)).take 6
    else generate_todos_fallback
  | none => generate_todos_fallback

/-- Embedding of `components_gemini.sentiment_of_text(text, ...)`
(src/components_gemini.py lines 337-347).  When the stripped output has no
lines, `out.strip().splitlines()[0]` raises `IndexError`, which the
surrounding `except` catches, so the function returns "neutral". -/
def sentiment_of_text (genOut : Option String) : String :=
  match genOut with
  | none => "neutral"
  | some out =>
    if out = "" then "neutral"
    else
      match pySplitlines (pyStrip out) with
      | [] => "neutral"
      | first :: _ =>
        if strContains (lowerStr first) "positive" = true then "positive"
        else if strContains (lowerStr first) "negative" = true then "negative"
        else "neutral"

/-- Embedding of `components_gemini.analyze_emotion(text)`
(src/components_gemini.py lines 349-352): `mapping.get(s, "listening")`
over `{"positive": "happy", "neutral": "listening", "negative": "concerned"}`. -/
def analyze_emotion (genOut : Option String) : String :=
  (List.lookup (sentiment_of_text genOut)
    [("positive", "happy"), ("neutral", "listening"), ("negative", "concerned")]).getD
    "listening"

/-- A body paragraph added by `export_to_pptx` (`p.text`, `p.level`,
`p.font.size = Pt(18)`). -/
structure SlideParagraph where
  text : String
  level : Nat
  fontSizePt : Nat
deriving Repr, DecidableEq, Inhabited

/-- A slide: its title text and the body placeholder's paragraphs after
`body.clear()` and the `add_paragraph` loop. -/
structure Slide where
  title : String
  body : List SlideParagraph
deriving Repr, DecidableEq, Inhabited

/-- The presentation `export_to_pptx` builds (the `prs.save`/`BytesIO`
serialization step is not modelled; the claims concern the slide structure). -/
structure PresentationDoc where
  slides : List Slide
deriving Repr, DecidableEq, Inhabited

/-- Embedding of `components_gemini.export_to_pptx(title, bullets, actions, ...)`
(src/components_gemini.py lines 442-481).  `pptxAvailable` models
`PPTX_AVAILABLE`; when false the source logs a warning and returns `None`.
Otherwise it adds a title slide, a "Key points" slide whose cleared body
receives one level-0, 18pt paragraph per bullet (`str(b)` of a string is the
string itself), and an "Action items" slide likewise. -/
def export_to_pptx (pptxAvailable : Bool) (title : String)
    (bullets actions : List String) : Option PresentationDoc :=
  if pptxAvailable then
    some { slides :=
      [ { title := title, body := [] },
        { title := "Key points",
          body := bullets.map (fun b => { text := b, level := 0, fontSizePt := 18 }) },
        { title := "Action items",
          body := actions.map (fun a => { text := a, level := 0, fontSizePt := 18 }) } ] }
  else none

end components_gemini

/-- The sentences of the spec's example scenario, as tokenized by
`sent_tokenize` ("Water boils at 100C. Ice melts at 0C. Steam rises.
Cold is heavy. Heat expands metal. Gas laws apply broadly."). -/
def exampleSents : List String :=
  ["Water boils at 100C.", "Ice melts at 0C.", "Steam rises.", "Cold is heavy.",
   "Heat expands metal.", "Gas laws apply broadly."]

/-- A seven-sentence input used to exercise the ranking branch. -/
def sevenSents : List String :=
  ["Alpha one.", "Beta two.", "Gamma three.", "Delta four.", "Epsilon five.",
   "Zeta six.", "Eta seven."]

/-- Concrete TF-IDF row sums for `sevenSents` (one per sentence). -/
def sevenScores : List Nat := [3, 9, 1, 7, 5, 8, 2]

/-! ### Helper lemmas about the string and list primitives -/

theorem length_mk (d : List Char) : (String.mk d).length = d.length := rfl

theorem strCat_data (a b : String) : (strCat a b).data = a.data ++ b.data := rfl

theorem length_strCat (a b : String) : (strCat a b).length = a.length + b.length := by
  cases a with
  | mk da =>
    cases b with
    | mk db => simp [strCat, length_mk, List.length_append]

theorem str_ne_empty_iff (s : String) : s ≠ "" ↔ 0 < s.length := by
  cases s with
  | mk d =>
    show String.mk d ≠ String.mk [] ↔ 0 < d.length
    rw [List.length_pos]
    constructor
    · intro h hd
      exact h (by rw [hd])
    · intro h he
      apply h
      injection he

theorem pyJoin_length_pos_of_mem (sep : String) (l : List String)
    (h : ∃ s ∈ l, s ≠ "") : 0 < (pyJoin sep l).length := by
  induction l with
  | nil => rcases h with ⟨s, hs, _⟩; simp at hs
  | cons a rest ih =>
    cases rest with
    | nil =>
      rcases h with ⟨s, hs, hne⟩
      simp at hs
      show 0 < a.length
      exact (str_ne_empty_iff a).mp (hs ▸ hne)
    | cons b r =>
      rcases h with ⟨s, hs, hne⟩
      rcases List.mem_cons.mp hs with rfl | hs'
      · have h1 : 0 < s.length := (str_ne_empty_iff s).mp hne
        simp [pyJoin, length_mk, List.length_append]
        omega
      · have h2 : 0 < (pyJoin sep (b :: r)).length := ih ⟨s, hs', hne⟩
        simp [pyJoin, length_mk, List.length_append]
        cases s.length
        · right; right
          cases hpj : (pyJoin sep (b :: r)) with
          | mk dpj => rw [hpj] at h2; simpa [length_mk] using h2
        · omega

theorem pyJoin_length_pos_of_two (sep : String) (hsep : sep ≠ "") (l : List String)
    (hl : 2 ≤ l.length) : 0 < (pyJoin sep l).length := by
  cases l with
  | nil => simp at hl
  | cons a rest =>
    cases rest with
    | nil => simp at hl
    | cons b r =>
      have h1 : 0 < sep.length := (str_ne_empty_iff sep).mp hsep
      simp [pyJoin, length_mk, List.length_append]
      omega

theorem pyJoin_ne_empty_of_mem (sep : String) (l : List String)
    (h : ∃ s ∈ l, s ≠ "") : pyJoin sep l ≠ "" :=
  (str_ne_empty_iff _).mpr (pyJoin_length_pos_of_mem sep l h)

theorem pyJoin_ne_empty_of_two (sep : String) (hsep : sep ≠ "") (l : List String)
    (hl : 2 ≤ l.length) : pyJoin sep l ≠ "" :=
  (str_ne_empty_iff _).mpr (pyJoin_length_pos_of_two sep hsep l hl)

theorem pyStrip_empty : pyStrip "" = "" := rfl

theorem mapGetD_shift {α : Type} (d : α) (a : α) (l : List α) (is : List Nat)
    (h1 : ∀ j ∈ is, 1 ≤ j) :
    is.map (fun j => (a :: l).getD j d) = (is.map (fun j => j - 1)).map (fun j => l.getD j d) := by
  rw [List.map_map]
  apply List.map_congr_left
  intro j hj
  have hj1 := h1 j hj
  cases j with
  | zero => omega
  | succ k => simp [List.getD_cons_succ]

theorem pairwise_lt_shift (is : List Nat) (hp : List.Pairwise (· < ·) is)
    (h1 : ∀ j ∈ is, 1 ≤ j) : List.Pairwise (· < ·) (is.map (fun j => j - 1)) := by
  apply List.pairwise_map.mpr
  have h2 := List.Pairwise.and_mem.mp hp
  exact h2.imp (fun hab => by
    have := h1 _ hab.1
    have := h1 _ hab.2.1
    omega)

theorem mapGetD_sublist {α : Type} (d : α) :
    ∀ (l : List α) (is : List Nat), List.Pairwise (· < ·) is →
      (∀ i ∈ is, i < l.length) →
      List.Sublist (is.map (fun i => l.getD i d)) l := by
  intro l
  induction l with
  | nil =>
    intro is hp hb
    cases is with
    | nil => exact List.nil_sublist _
    | cons i is' => exact absurd (hb i (List.mem_cons_self _ _)) (by simp)
  | cons a l' ih =>
    intro is hp hb
    cases is with
    | nil => exact List.nil_sublist _
    | cons i is' =>
      have hgt := (List.pairwise_cons.mp hp).1
      have hp' := (List.pairwise_cons.mp hp).2
      cases i with
      | zero =>
        have h1 : ∀ j ∈ is', 1 ≤ j := fun j hj => hgt j hj
        have hb' : ∀ j ∈ is'.map (fun j => j - 1), j < l'.length := by
          intro j hj
          rcases List.mem_map.mp hj with ⟨j0, hj0, rfl⟩
          have hb0 := hb j0 (List.mem_cons_of_mem _ hj0)
          have h10 := h1 j0 hj0
          simp at hb0
          omega
        have hsub := ih (is'.map (fun j => j - 1)) (pairwise_lt_shift is' hp' h1) hb'
        simp only [List.map_cons]
        rw [show (a :: l').getD 0 d = a from rfl, mapGetD_shift d a l' is' h1]
        exact hsub.cons₂ a
      | succ k =>
        have h1 : ∀ j ∈ (k + 1) :: is', 1 ≤ j := by
          intro j hj
          rcases List.mem_cons.mp hj with rfl | hj'
          · omega
          · have := hgt j hj'; omega
        have hb' : ∀ j ∈ ((k + 1) :: is').map (fun j => j - 1), j < l'.length := by
          intro j hj
          rcases List.mem_map.mp hj with ⟨j0, hj0, rfl⟩
          have hb0 := hb j0 hj0
          have h10 := h1 j0 hj0
          simp at hb0
          omega
        have hpk : List.Pairwise (· < ·) ((k + 1) :: is') := hp
        have hsub := ih (((k + 1) :: is').map (fun j => j - 1))
          (pairwise_lt_shift _ hpk h1) hb'
        rw [mapGetD_shift d a l' ((k + 1) :: is') h1]
        exact hsub.cons a

theorem topIdx_length (scores : List Nat) (n : Nat) :
    (topIdx scores n).length = min n scores.length := by
  rw [topIdx, List.length_insertionSort, List.length_take, List.length_reverse,
    argsortAsc, List.length_insertionSort, List.length_range]

theorem topIdx_nodup (scores : List Nat) (n : Nat) : (topIdx scores n).Nodup := by
  have h0 : (List.range scores.length).Nodup := List.nodup_range _
  have h1 : (argsortAsc scores).Nodup :=
    (List.perm_insertionSort _ (List.range scores.length)).nodup_iff.mpr h0
  have h2 : (argsortAsc scores).reverse.Nodup := by rw [List.nodup_reverse]; exact h1
  have h3 := (List.take_sublist n _).nodup h2
  exact (List.perm_insertionSort (· ≤ ·) _).nodup_iff.mpr h3

theorem topIdx_sorted (scores : List Nat) (n : Nat) :
    List.Sorted (· ≤ ·) (topIdx scores n) :=
  List.sorted_insertionSort (· ≤ ·) _

theorem topIdx_pairwise (scores : List Nat) (n : Nat) :
    List.Pairwise (· < ·) (topIdx scores n) :=
  (List.Pairwise.and (topIdx_sorted scores n) (topIdx_nodup scores n)).imp
    (fun hab => lt_of_le_of_ne hab.1 hab.2)

theorem topIdx_mem_lt (scores : List Nat) (n : Nat) :
    ∀ i ∈ topIdx scores n, i < scores.length := by
  intro i hi
  rw [topIdx, List.mem_insertionSort] at hi
  have h2 := List.take_subset n _ hi
  rw [List.mem_reverse, argsortAsc, List.mem_insertionSort, List.mem_range] at h2
  exact h2

theorem tfidfSelected_length (sents : List String) (scores : List Nat) (n : Nat) :
    (tfidfSelected sents scores n).length = min n scores.length := by
  rw [tfidfSelected, List.length_map, topIdx_length]

theorem tfidfSelected_sublist (sents : List String) (scores : List Nat) (n : Nat)
    (h : scores.length = sents.length) :
    List.Sublist (tfidfSelected sents scores n) sents :=
  mapGetD_sublist "" sents (topIdx scores n) (topIdx_pairwise scores n)
    (fun i hi => h ▸ topIdx_mem_lt scores n i hi)

theorem getD_map_range {α : Type} (d : α) (count i : Nat) (f : Nat → α) (h : i < count) :
    ((List.range count).map f).getD i d = f i := by
  have h1 : i < ((List.range count).map f).length := by simpa using h
  rw [List.getD_eq_getElem _ _ h1, List.getElem_map, List.getElem_range]

theorem collapseBLAux_eq_self (l : List Char) (h : ∀ c ∈ l, c ≠ '\n') :
    ∀ run, collapseBLAux run l = l := by
  induction l with
  | nil => intro run; rfl
  | cons c rest ih =>
    intro run
    have hc : c ≠ '\n' := h c (List.mem_cons_self _ _)
    have hr : ∀ x ∈ rest, x ≠ '\n' := fun x hx => h x (List.mem_cons_of_mem _ hx)
    simp [collapseBLAux, hc, ih hr]

theorem collapseWSAux_eq_self (l : List Char) (h : ∀ c ∈ l, pyWs c = false) :
    ∀ b, collapseWSAux b l = l := by
  induction l with
  | nil => intro b; rfl
  | cons c rest ih =>
    intro b
    have hc : pyWs c = false := h c (List.mem_cons_self _ _)
    have hr : ∀ x ∈ rest, pyWs x = false := fun x hx => h x (List.mem_cons_of_mem _ hx)
    simp [collapseWSAux, hc, ih hr]

theorem dropWhile_replicate_a (p : Char → Bool) (hp : p 'a' = false) (n : Nat) :
    List.dropWhile p (List.replicate n 'a') = List.replicate n 'a' := by
  cases n with
  | zero => rfl
  | succ m => rw [List.replicate_succ, List.dropWhile_cons, hp]; simp

theorem pyStrip_replicate_a (n : Nat) :
    pyStrip (String.mk (List.replicate n 'a')) = String.mk (List.replicate n 'a') := by
  have hp : pyWs 'a' = false := by decide
  unfold pyStrip pyStripChars
  rw [show (String.mk (List.replicate n 'a')).data = List.replicate n 'a' from rfl,
    dropWhile_replicate_a pyWs hp n, List.reverse_replicate,
    dropWhile_replicate_a pyWs hp n, List.reverse_replicate]

theorem collapseBlankLines_replicate_a (n : Nat) :
    collapseBlankLines (String.mk (List.replicate n 'a')) = String.mk (List.replicate n 'a') := by
  unfold collapseBlankLines
  rw [show (String.mk (List.replicate n 'a')).data = List.replicate n 'a' from rfl,
    collapseBLAux_eq_self _ (fun c hc => by
      rw [List.eq_of_mem_replicate hc]; decide) 0]

theorem collapseWhitespace_replicate_a (n : Nat) :
    collapseWhitespace (String.mk (List.replicate n 'a')) = String.mk (List.replicate n 'a') := by
  unfold collapseWhitespace
  rw [show (String.mk (List.replicate n 'a')).data = List.replicate n 'a' from rfl,
    collapseWSAux_eq_self _ (fun c hc => by
      rw [List.eq_of_mem_replicate hc]; decide) false]

/-! ### Claim theorems -/

/-- Claim C1: for every input text whose sentence count does not exceed the
configured summary sentence count `n`, the extractive fallback summarizer
returns all of the text's sentences, unmodified and in their original order
(components.py joins them with "\n\n", components_gemini.py with "\n"). -/
theorem C1_extractive_returns_all_sentences
    (sents : List String) (scores : List Nat) (n : Nat) (scipy : Bool)
    (h : sents.length ≤ n) :
    components.extractive_summary sents scores n = pyJoin "\n\n" sents ∧
    components_gemini.extractive_summary scipy sents scores n = pyJoin "\n" sents ∧
    components.selectedSentences sents scores n = sents ∧
    components_gemini.selectedSentences scipy sents scores n = sents := by
  refine ⟨?_, ?_, ?_, ?_⟩ <;>
    simp [components.extractive_summary, components_gemini.extractive_summary,
      components.selectedSentences, components_gemini.selectedSentences, h]

/-- Witness for C1 at the spec's example scenario: six sentences, requested
summary of six sentences. -/
theorem C1_extractive_returns_all_sentences_witness :
    exampleSents.length ≤ 6 ∧
    components.extractive_summary exampleSents [] 6 = pyJoin "\n\n" exampleSents ∧
    components_gemini.extractive_summary true exampleSents [] 6 = pyJoin "\n" exampleSents ∧
    components.selectedSentences exampleSents [] 6 = exampleSents :=
  ⟨by decide,
   (C1_extractive_returns_all_sentences exampleSents [] 6 true (by decide)).1,
   (C1_extractive_returns_all_sentences exampleSents [] 6 true (by decide)).2.1,
   (C1_extractive_returns_all_sentences exampleSents [] 6 true (by decide)).2.2.1⟩

/-- Claim C2: the extractive fallback returns at most `n` sentences, and the
sentences it selects appear in the output in their original order in the
source text (`List.Sublist` of the tokenized sentence list); the returned
string is the join of that selected list.  The hypothesis
`scores.length = sents.length` holds whenever the scores are the TF-IDF row
sums of the sentence list, which is how both sources produce them. -/
theorem C2_extractive_at_most_n_in_order
    (sents : List String) (scores : List Nat) (n : Nat) (scipy : Bool)
    (hs : scores.length = sents.length) :
    (components.selectedSentences sents scores n).length ≤ n ∧
    List.Sublist (components.selectedSentences sents scores n) sents ∧
    (components_gemini.selectedSentences scipy sents scores n).length ≤ n ∧
    List.Sublist (components_gemini.selectedSentences scipy sents scores n) sents ∧
    (sents.length ≤ n →
      components.extractive_summary sents scores n
          = pyJoin "\n\n" (components.selectedSentences sents scores n) ∧
      components_gemini.extractive_summary scipy sents scores n
          = pyJoin "\n" (components_gemini.selectedSentences scipy sents scores n)) ∧
    (¬ sents.length ≤ n →
      components.extractive_summary sents scores n
          = pyJoin " " (components.selectedSentences sents scores n) ∧
      components_gemini.extractive_summary scipy sents scores n
          = pyJoin " " (components_gemini.selectedSentences scipy sents scores n)) := by
  by_cases hle : sents.length ≤ n
  · refine ⟨?_, ?_, ?_, ?_, fun _ => ⟨?_, ?_⟩, fun hn => absurd hle hn⟩ <;>
      simp [components.selectedSentences, components_gemini.selectedSentences,
        components.extractive_summary, components_gemini.extractive_summary, hle]
  · have h1 : (tfidfSelected sents scores n).length ≤ n := by
      rw [tfidfSelected_length]; exact Nat.min_le_left _ _
    have h2 := tfidfSelected_sublist sents scores n hs
    have h3 : (sents.take n).length ≤ n := by
      rw [List.length_take]; exact Nat.min_le_left _ _
    have h4 := List.take_sublist n sents
    cases scipy with
    | true =>
      refine ⟨?_, ?_, ?_, ?_, fun hc => absurd hc hle, fun _ => ⟨?_, ?_⟩⟩ <;>
        simp [components.selectedSentences, components_gemini.selectedSentences,
          components.extractive_summary, components_gemini.extractive_summary,
          hle, h1, h2]
    | false =>
      refine ⟨?_, ?_, ?_, ?_, fun hc => absurd hc hle, fun _ => ⟨?_, ?_⟩⟩ <;>
        simp [components.selectedSentences, components_gemini.selectedSentences,
          components.extractive_summary, components_gemini.extractive_summary,
          hle, h1, h2, h3, h4]

/-- Witness for C2 on a seven-sentence text with seven concrete scores and
`n = 6` (the ranking branch). -/
theorem C2_extractive_at_most_n_in_order_witness :
    (components.selectedSentences sevenSents sevenScores 6).length ≤ 6 ∧
    List.Sublist (components.selectedSentences sevenSents sevenScores 6) sevenSents ∧
    List.Sublist (components_gemini.selectedSentences true sevenSents sevenScores 6) sevenSents :=
  ⟨(C2_extractive_at_most_n_in_order sevenSents sevenScores 6 true (by decide)).1,
   (C2_extractive_at_most_n_in_order sevenSents sevenScores 6 true (by decide)).2.1,
   (C2_extractive_at_most_n_in_order sevenSents sevenScores 6 true (by decide)).2.2.2.1⟩

/-- Claim C3: when the fetch or parse raises (modelled by `Except.error e`),
both `fetch_url_text` variants return a string beginning with the sentinel
"ERROR" ("ERROR: Could not fetch URL: ..." in components.py,
"ERROR_FETCH: Could not fetch ..." in components_gemini.py).  The embedded
functions are total, modelling that the `except` handler converts every
exception into this return value and none escapes to the caller. -/
theorem C3_fetch_error_sentinel (url e : String) :
    (∃ r, components.fetch_url_text (Except.error e) = strCat "ERROR" r) ∧
    (∃ r, components_gemini.fetch_url_text url (Except.error e) = strCat "ERROR" r) :=
  ⟨⟨strCat ": Could not fetch URL: " e, rfl⟩,
   ⟨strCat "_FETCH: Could not fetch " (strCat url (strCat " (" (strCat e ")"))), rfl⟩⟩

/-- Claim C5: slide export produces exactly three slides — a title-only
slide, a "Key points" bulleted slide and an "Action items" bulleted slide —
whose bullet and action paragraph counts (and texts) match the inputs; when
python-pptx is unavailable it returns `none`.  This holds for all input
lists, in particular those within the per-slide capacity. -/
theorem C5_export_three_slides (title : String) (bullets actions : List String) :
    components_gemini.export_to_pptx false title bullets actions = none ∧
    ∃ prs, components_gemini.export_to_pptx true title bullets actions = some prs ∧
      prs.slides.length = 3 ∧
      (prs.slides.getD 0 default).title = title ∧
      (prs.slides.getD 0 default).body = [] ∧
      (prs.slides.getD 1 default).title = "Key points" ∧
      (prs.slides.getD 1 default).body.length = bullets.length ∧
      (prs.slides.getD 2 default).title = "Action items" ∧
      (prs.slides.getD 2 default).body.length = actions.length ∧
      (prs.slides.getD 1 default).body.map components_gemini.SlideParagraph.text = bullets ∧
      (prs.slides.getD 2 default).body.map components_gemini.SlideParagraph.text = actions := by
  constructor
  · rfl
  · refine ⟨_, rfl, rfl, rfl, rfl, rfl, ?_, rfl, ?_, ?_, ?_⟩
    · simp
    · simp
    · show ((bullets.map (fun b =>
          ({ text := b, level := 0, fontSizePt := 18 } : components_gemini.SlideParagraph))).map
          components_gemini.SlideParagraph.text) = bullets
      rw [List.map_map]
      exact List.map_id bullets
    · show ((actions.map (fun a =>
          ({ text := a, level := 0, fontSizePt := 18 } : components_gemini.SlideParagraph))).map
          components_gemini.SlideParagraph.text) = actions
      rw [List.map_map]
      exact List.map_id actions

theorem extractive_gemini_ne_empty (scipy : Bool) (sents : List String) (scores : List Nat)
    (hne : ∃ s ∈ sents, s ≠ "") (hs : scores.length = sents.length) :
    components_gemini.extractive_summary scipy sents scores 6 ≠ "" := by
  by_cases hle : sents.length ≤ 6
  · simp only [components_gemini.extractive_summary, if_pos hle]
    exact pyJoin_ne_empty_of_mem _ _ hne
  · have h6 : 6 ≤ sents.length := by omega
    cases scipy with
    | true =>
      simp only [components_gemini.extractive_summary, if_neg hle, if_pos]
      apply pyJoin_ne_empty_of_two " " (by decide)
      rw [tfidfSelected_length, hs, Nat.min_eq_left h6]
      omega
    | false =>
      simp only [components_gemini.extractive_summary, if_neg hle, Bool.false_eq_true,
        if_false]
      apply pyJoin_ne_empty_of_two " " (by decide)
      rw [List.length_take, Nat.min_eq_left h6]
      omega

/-- Counterexample to C4 as stated: on the empty input text (for which
`sent_tokenize` returns no sentences) with the generation client raising on
every call (modelled by `none`), `smart_summarize` and
`generate_action_items` both return the empty string — not a non-empty
fallback result. -/
theorem C4_counterexample :
    components_gemini.smart_summarize none true [] [] = "" ∧
    components_gemini.generate_action_items none [] = "" := by
  constructor <;> rfl

/-- Claim C4 (amended): with the generation client yielding no usable output
on every call (`none`), and an input text that tokenizes to at least one
nonempty sentence (with one TF-IDF score per sentence) and a positive
requested flashcard count, summarization and action-item generation return
nonempty text, flashcard generation returns a nonempty list of exactly
`count` {q, a} pairs, and todo generation returns a nonempty list of
strings.  (On the empty text the two text-valued fallbacks are empty.) -/
theorem C4_fallbacks_nonempty (scipy : Bool) (sents : List String) (scores : List Nat)
    (count : Nat) (hne : ∃ s ∈ sents, s ≠ "") (hs : scores.length = sents.length)
    (hc : 0 < count) :
    components_gemini.smart_summarize none scipy sents scores ≠ "" ∧
    components_gemini.generate_action_items none sents ≠ "" ∧
    components_gemini.generate_flashcards_fallback sents count ≠ [] ∧
    (components_gemini.generate_flashcards_fallback sents count).length = count ∧
    components_gemini.generate_todos none ≠ [] := by
  have hflen : (components_gemini.generate_flashcards_fallback sents count).length = count := by
    simp [components_gemini.generate_flashcards_fallback]
  refine ⟨?_, ?_, ?_, hflen, ?_⟩
  · show components_gemini.extractive_summary scipy sents scores 6 ≠ ""
    exact extractive_gemini_ne_empty scipy sents scores hne hs
  · show pyJoin "\n" ((sents.take 4).map (fun s => strCat "- " (pyStrip s))) ≠ ""
    cases sents with
    | nil => rcases hne with ⟨s0, hs0, _⟩; simp at hs0
    | cons a rest =>
      apply pyJoin_ne_empty_of_mem
      refine ⟨strCat "- " (pyStrip a), ?_, ?_⟩
      · rw [show (a :: rest).take 4 = a :: rest.take 3 from rfl]
        exact List.mem_map_of_mem _ (List.mem_cons_self _ _)
      · rw [str_ne_empty_iff, length_strCat]
        have h2 : ("- " : String).length = 2 := rfl
        omega
  · intro hnil
    rw [hnil] at hflen
    simp at hflen
    omega
  · show components_gemini.generate_todos_fallback ≠ []
    decide

/-- Witness for the amended C4 at a one-sentence text. -/
theorem C4_fallbacks_nonempty_witness :
    components_gemini.smart_summarize none true ["Hello world."] [5] ≠ "" ∧
    (components_gemini.generate_flashcards_fallback ["Hello world."] 3).length = 3 ∧
    components_gemini.generate_todos none ≠ [] :=
  ⟨(C4_fallbacks_nonempty true ["Hello world."] [5] 3 (by decide) (by decide) (by decide)).1,
   (C4_fallbacks_nonempty true ["Hello world."] [5] 3 (by decide) (by decide) (by decide)).2.2.2.1,
   (C4_fallbacks_nonempty true ["Hello world."] [5] 3 (by decide) (by decide) (by decide)).2.2.2.2⟩

/-- Claim C6: mood classification is a deterministic function of the
one-word sentiment judgment of the reply text: "positive" maps to "happy",
"negative" to "concerned", "neutral" to "listening". -/
theorem C6_emotion_mapping (g : Option String) :
    (components_gemini.sentiment_of_text g = "positive" →
      components_gemini.analyze_emotion g = "happy") ∧
    (components_gemini.sentiment_of_text g = "negative" →
      components_gemini.analyze_emotion g = "concerned") ∧
    (components_gemini.sentiment_of_text g = "neutral" →
      components_gemini.analyze_emotion g = "listening") := by
  refine ⟨fun h => ?_, fun h => ?_, fun h => ?_⟩ <;>
    (unfold components_gemini.analyze_emotion; rw [h]; decide)

/-- Witness for C6 at client replies judged positive, negative and neutral. -/
theorem C6_emotion_mapping_witness :
    components_gemini.analyze_emotion (some "positive") = "happy" ∧
    components_gemini.analyze_emotion (some "negative") = "concerned" ∧
    components_gemini.analyze_emotion (some "ok") = "listening" :=
  ⟨(C6_emotion_mapping (some "positive")).1 (by decide),
   (C6_emotion_mapping (some "negative")).2.1 (by decide),
   (C6_emotion_mapping (some "ok")).2.2 (by decide)⟩

/-- Counterexample to C7 as stated: the "fewer than ~10 characters counts as
failure" heuristic is absent from the components.py variant: with the API key
set and the client returning the 5-character string "Short", its
`smart_summarize` returns "Short" itself, not the extractive fallback (which
on the empty sentence list is ""). -/
theorem C7_counterexample :
    components.smart_summarize true (some "Short") [] [] = "Short" ∧
    ("Short" : String).length < 10 ∧
    components.smart_summarize true (some "Short") [] []
      ≠ components.extractive_summary [] [] 6 := by
  refine ⟨rfl, by decide, ?_⟩
  intro h
  exact absurd h (by decide)

/-- Claim C7 (amended): components_gemini.smart_summarize returns the
stripped client response exactly when it is non-`None` and its stripped
length exceeds 10 characters, and the extractive fallback when the client
yields `None` (throws, times out) or an empty/too-short (at most 10
characters after stripping) result.  The components.py variant has no length
threshold: with the API key set it returns the client response unless that is
`None`, empty, or begins with "OpenAI Error", and the extractive fallback in
those cases (and always when no key is set). -/
theorem C7_smart_summarize_policy (genOut : Option String) (scipy : Bool)
    (sents : List String) (scores : List Nat) :
    (∀ out, genOut = some out → 10 < (pyStrip out).length →
      components_gemini.smart_summarize genOut scipy sents scores = pyStrip out) ∧
    (∀ out, genOut = some out → (pyStrip out).length ≤ 10 →
      components_gemini.smart_summarize genOut scipy sents scores
        = components_gemini.extractive_summary scipy sents scores 6) ∧
    (genOut = none →
      components_gemini.smart_summarize genOut scipy sents scores
        = components_gemini.extractive_summary scipy sents scores 6) ∧
    (∀ out, genOut = some out → out ≠ "" → pyStartsWith out "OpenAI Error" = false →
      components.smart_summarize true genOut sents scores = out) ∧
    (∀ out, genOut = some out → pyStartsWith out "OpenAI Error" = true →
      components.smart_summarize true genOut sents scores
        = components.extractive_summary sents scores 6) ∧
    (genOut = none →
      components.smart_summarize true genOut sents scores
        = components.extractive_summary sents scores 6) ∧
    components.smart_summarize false genOut sents scores
      = components.extractive_summary sents scores 6 := by
  refine ⟨?_, ?_, ?_, ?_, ?_, ?_, rfl⟩
  · intro out hg h10
    subst hg
    have hne : out ≠ "" := by
      intro he
      subst he
      exact absurd h10 (by decide)
    show (if out ≠ "" ∧ 10 < (pyStrip out).length then pyStrip out else _) = pyStrip out
    rw [if_pos ⟨hne, h10⟩]
  · intro out hg h10
    subst hg
    show (if out ≠ "" ∧ 10 < (pyStrip out).length then pyStrip out else _) = _
    rw [if_neg]
    intro hand
    exact absurd hand.2 (by omega)
  · intro hg; subst hg; rfl
  · intro out hg hne hsw
    subst hg
    show (if out ≠ "" ∧ pyStartsWith out "OpenAI Error" = false then out else _) = out
    rw [if_pos ⟨hne, hsw⟩]
  · intro out hg hsw
    subst hg
    show (if out ≠ "" ∧ pyStartsWith out "OpenAI Error" = false then out else _) = _
    rw [if_neg]
    intro hand
    rw [hsw] at hand
    exact absurd hand.2 (by decide)
  · intro hg; subst hg; rfl

/-- Witness for the amended C7: a long client reply is returned stripped by
the components_gemini variant, and returned as-is by the components.py
variant. -/
theorem C7_smart_summarize_policy_witness :
    components_gemini.smart_summarize (some "A sufficiently long model output.") true [] []
      = pyStrip "A sufficiently long model output." ∧
    components.smart_summarize true (some "Remote summary text") [] []
      = "Remote summary text" :=
  ⟨(C7_smart_summarize_policy (some "A sufficiently long model output.") true [] []).1
      "A sufficiently long model output." rfl (by decide),
   (C7_smart_summarize_policy (some "Remote summary text") true [] []).2.2.2.1
      "Remote summary text" rfl (by decide) (by decide)⟩

/-- Counterexample to C8 as stated: the components_gemini variant of
`fetch_url_text` applies no truncation at all: a successfully fetched page
whose extracted visible text is 30000 characters of 'a' is returned at its
full length of 30000 characters, exceeding every 20-25k budget plus the
three-character ellipsis marker. -/
theorem C8_counterexample :
    25003 < (components_gemini.fetch_url_text "https://example.com"
      (Except.ok (String.mk (List.replicate 30000 'a')))).length := by
  show 25003 < (pyStrip (collapseBlankLines (String.mk (List.replicate 30000 'a')))).length
  rw [collapseBlankLines_replicate_a, pyStrip_replicate_a, length_mk, List.length_replicate]
  omega

/-- Claim C8 (amended): only the components.py variant of `fetch_url_text`
hard-truncates the extracted text — to 20000 characters with a trailing
"..." whenever the whitespace-collapsed text is longer than 20000
characters — so its result never exceeds 20003 characters; the
components_gemini variant returns the extracted text untruncated. -/
theorem C8_truncation_py (s : String) :
    (components.fetch_url_text (Except.ok s)).length ≤ 20003 ∧
    (20000 < (collapseWhitespace s).length →
      components.fetch_url_text (Except.ok s)
        = strCat (pySlice (collapseWhitespace s) 20000) "...") ∧
    ((collapseWhitespace s).length ≤ 20000 →
      components.fetch_url_text (Except.ok s) = collapseWhitespace s) := by
  by_cases h : 20000 < (collapseWhitespace s).length
  · have he : components.fetch_url_text (Except.ok s)
        = strCat (pySlice (collapseWhitespace s) 20000) "..." := by
      show (if 20000 < (collapseWhitespace s).length then _ else _) = _
      rw [if_pos h]
    refine ⟨?_, fun _ => he, fun hle => absurd h (by omega)⟩
    rw [he, length_strCat]
    have h1 : (pySlice (collapseWhitespace s) 20000).length ≤ 20000 := by
      show (List.take 20000 (collapseWhitespace s).data).length ≤ 20000
      rw [List.length_take]
      exact Nat.min_le_left _ _
    have h2 : ("..." : String).length = 3 := rfl
    omega
  · have he : components.fetch_url_text (Except.ok s) = collapseWhitespace s := by
      show (if 20000 < (collapseWhitespace s).length then _ else _) = _
      rw [if_neg h]
    refine ⟨?_, fun hgt => absurd hgt h, fun _ => he⟩
    rw [he]
    omega

/-- Witness for the amended C8 at a 20001-character extracted text, which is
truncated to 20000 characters plus "...". -/
theorem C8_truncation_py_witness :
    20000 < (collapseWhitespace (String.mk (List.replicate 20001 'a'))).length ∧
    components.fetch_url_text (Except.ok (String.mk (List.replicate 20001 'a')))
      = strCat (pySlice (collapseWhitespace (String.mk (List.replicate 20001 'a'))) 20000)
          "..." := by
  have hgt : 20000 < (collapseWhitespace (String.mk (List.replicate 20001 'a'))).length := by
    rw [collapseWhitespace_replicate_a, length_mk, List.length_replicate]
    omega
  exact ⟨hgt, (C8_truncation_py (String.mk (List.replicate 20001 'a'))).2.1 hgt⟩

/-- Claim C9: whenever the generation client yields no usable output,
`generate_flashcards` returns exactly `count` flashcards (each a {q, a}
record): card `i` pairs sentences `i*2` and `i*2+1`, and past the end of the
sentence list the question is the placeholder "Concept i+1" and the answer
the empty string — including for the empty text (empty sentence list). -/
theorem C9_flashcards_fallback_shape (sents : List String) (count : Nat) :
    (components_gemini.generate_flashcards_fallback sents count).length = count ∧
    ∀ i, i < count →
      (components_gemini.generate_flashcards_fallback sents count).getD i default =
        { q := if i * 2 < sents.length then sents.getD (i * 2) ""
               else strCat "Concept " (toString (i + 1)),
          a := if i * 2 + 1 < sents.length then sents.getD (i * 2 + 1) "" else "" } := by
  constructor
  · simp [components_gemini.generate_flashcards_fallback]
  · intro i hi
    unfold components_gemini.generate_flashcards_fallback
    rw [getD_map_range _ count i _ hi]

/-- Witness for C9: with three sentences and `count = 2`, card 1 pairs
sentence 2 with an empty answer. -/
theorem C9_flashcards_fallback_shape_witness :
    (components_gemini.generate_flashcards_fallback
        ["S one.", "S two.", "S three."] 2).getD 1 default
      = { q := "S three.", a := "" } := by
  have h := (C9_flashcards_fallback_shape ["S one.", "S two.", "S three."] 2).2 1 (by decide)
  rw [h]
  decide

/-- Claim C10: `sentiment_of_text` always returns one of "positive",
"negative", "neutral"; it returns "neutral" when the client is unavailable
or raises (`none`) and when the response's first line contains neither
"positive" nor "negative"; consequently `analyze_emotion` only ever returns
"happy", "listening" or "concerned" — never "excited", "battle", "thinking"
or "idle". -/
theorem C10_sentiment_range (g : Option String) :
    (components_gemini.sentiment_of_text g = "positive" ∨
     components_gemini.sentiment_of_text g = "negative" ∨
     components_gemini.sentiment_of_text g = "neutral") ∧
    (g = none → components_gemini.sentiment_of_text g = "neutral") ∧
    (∀ out first rest, g = some out → out ≠ "" →
      pySplitlines (pyStrip out) = first :: rest →
      strContains (lowerStr first) "positive" = false →
      strContains (lowerStr first) "negative" = false →
      components_gemini.sentiment_of_text g = "neutral") ∧
    (components_gemini.analyze_emotion g = "happy" ∨
     components_gemini.analyze_emotion g = "listening" ∨
     components_gemini.analyze_emotion g = "concerned") := by
  have hrange : components_gemini.sentiment_of_text g = "positive" ∨
      components_gemini.sentiment_of_text g = "negative" ∨
      components_gemini.sentiment_of_text g = "neutral" := by
    cases g with
    | none => right; right; rfl
    | some out =>
      by_cases he : out = ""
      · right; right; simp [components_gemini.sentiment_of_text, he]
      · rcases hsp : pySplitlines (pyStrip out) with _ | ⟨first, rest⟩
        · right; right; simp [components_gemini.sentiment_of_text, he, hsp]
        · by_cases hpos : strContains (lowerStr first) "positive" = true
          · left; simp [components_gemini.sentiment_of_text, he, hsp, hpos]
          · by_cases hneg : strContains (lowerStr first) "negative" = true
            · right; left
              simp [components_gemini.sentiment_of_text, he, hsp, hpos, hneg]
            · right; right
              simp [components_gemini.sentiment_of_text, he, hsp, hpos, hneg]
  refine ⟨hrange, ?_, ?_, ?_⟩
  · intro h; subst h; rfl
  · intro out first rest hg he hsp hpos hneg
    subst hg
    simp [components_gemini.sentiment_of_text, he, hsp, hpos, hneg]
  · rcases hrange with h | h | h <;>
      (unfold components_gemini.analyze_emotion; rw [h]; decide)

/-- Witness for C10 at a reply whose first line mentions neither sentiment
word: the judgment is "neutral" and the mood "listening". -/
theorem C10_sentiment_range_witness :
    components_gemini.sentiment_of_text (some "I am not sure.") = "neutral" ∧
    components_gemini.analyze_emotion (some "I am not sure.") = "listening" := by
  constructor
  · exact (C10_sentiment_range (some "I am not sure.")).2.2.1 "I am not sure."
      "I am not sure." [] rfl (by decide) (by decide) (by decide) (by decide)
  · decide
